import Mathlib

/-!
Shallow embedding of the Alnylam-Financial-Analyzer core pipeline
(`filing_parser.py`, `data_manager.py`, `financial_analyzer.py`,
`search_analyzer.py`).

Numeric values extracted from filings are IEEE doubles in the source; here
they are modelled by `PFloat`: an exact rational for finite values plus the
special values `inf`, `negInf` and `nan`.  The only floating-point effects
the claims touch are the results of dividing by zero (pandas `pct_change`
and numpy scalar division return `inf`, `-inf` or `nan` and never raise),
and those semantics are modelled exactly.  Rounding of finite values plays
no role in any claim, so finite arithmetic is exact rational arithmetic.
Signed zero is not modelled; no analysed code path distinguishes `-0.0`.
-/

/-- IEEE-754 double value: finite (exact rational), infinities, or NaN. -/
inductive PFloat where
  | finite (q : ℚ)
  | inf
  | negInf
  | nan
deriving DecidableEq, Repr

namespace PFloat

/-- IEEE subtraction, restricted to the exact cases (no rounding). -/
def sub : PFloat → PFloat → PFloat
  | nan, _ => nan
  | _, nan => nan
  | finite a, finite b => finite (a - b)
  | inf, finite _ => inf
  | negInf, finite _ => negInf
  | finite _, inf => negInf
  | finite _, negInf => inf
  | inf, negInf => inf
  | negInf, inf => negInf
  | inf, inf => nan
  | negInf, negInf => nan

/-- IEEE multiplication, restricted to the exact cases (no rounding). -/
def mul : PFloat → PFloat → PFloat
  | nan, _ => nan
  | _, nan => nan
  | finite a, finite b => finite (a * b)
  | inf, finite b => if 0 < b then inf else if b < 0 then negInf else nan
  | finite a, inf => if 0 < a then inf else if a < 0 then negInf else nan
  | negInf, finite b => if 0 < b then negInf else if b < 0 then inf else nan
  | finite a, negInf => if 0 < a then negInf else if a < 0 then inf else nan
  | inf, inf => inf
  | negInf, negInf => inf
  | inf, negInf => negInf
  | negInf, inf => negInf

/-- IEEE division: a nonzero finite value divided by (positive) zero is a
signed infinity, `0/0` is NaN; numpy float64 division never raises. -/
def div : PFloat → PFloat → PFloat
  | nan, _ => nan
  | _, nan => nan
  | finite a, finite b =>
      if b = 0 then (if 0 < a then inf else if a < 0 then negInf else nan)
      else finite (a / b)
  | inf, finite b => if 0 ≤ b then inf else negInf
  | negInf, finite b => if 0 ≤ b then negInf else inf
  | finite _, inf => finite 0
  | finite _, negInf => finite 0
  | inf, inf => nan
  | inf, negInf => nan
  | negInf, inf => nan
  | negInf, negInf => nan

/-- Python comparison `x > q` for a float `x` against a finite threshold:
`inf > q` is true, comparisons against NaN are false. -/
def gtQ : PFloat → ℚ → Bool
  | finite a, q => decide (q < a)
  | inf, _ => true
  | negInf, _ => false
  | nan, _ => false

/-- The rational carried by a finite value (0 otherwise; only used on
lists already known to be all-finite). -/
def toQ : PFloat → ℚ
  | finite a => a
  | _ => 0

/-- Is this value NaN? -/
def isNaN : PFloat → Bool
  | nan => true
  | _ => false

/-- Is this value positive infinity? -/
def isPosInf : PFloat → Bool
  | inf => true
  | _ => false

/-- Is this value negative infinity? -/
def isNegInf : PFloat → Bool
  | negInf => true
  | _ => false

end PFloat

/-- pandas `Series.mean()` with the default `skipna=True`: NaNs are
dropped; an infinity among the remaining values dominates; opposite
infinities give NaN; the mean of an empty series is NaN. -/
def pfMean (l : List PFloat) : PFloat :=
  let l2 := l.filter (fun x => !x.isNaN)
  if l2.isEmpty then PFloat.nan
  else if l2.any PFloat.isPosInf && l2.any PFloat.isNegInf then PFloat.nan
  else if l2.any PFloat.isPosInf then PFloat.inf
  else if l2.any PFloat.isNegInf then PFloat.negInf
  else PFloat.finite ((l2.map PFloat.toQ).sum / l2.length)

/-- pandas `Series.pct_change()` over a column of finite values: the first
entry is NaN, and entry `i` is `v[i] / v[i-1] - 1`, computed with IEEE
division (so a zero prior value yields `inf`, `-inf` or NaN, never an
exception). -/
def pctChange (vs : List ℚ) : List PFloat :=
  match vs with
  | [] => []
  | _ :: rest =>
      PFloat.nan ::
        (vs.zip rest).map (fun pc =>
          PFloat.sub (PFloat.div (PFloat.finite pc.2) (PFloat.finite pc.1)) (PFloat.finite 1))

/-- The `growth_rate` column of the trend analysis:
`metric_data[metric].pct_change() * 100`. -/
def growthRates (vs : List ℚ) : List PFloat :=
  (pctChange vs).map (fun x => x.mul (PFloat.finite 100))

/-!
## Stored filing records and the financial timeline

A stored filing (`data/filings/*.json`, produced by `parse_filing` and read
back by `get_all_parsed_filings`) is modelled by `Filing`.  Only the fields
read by the analysis pipeline are carried; the qualitative extracts
(`key_highlights`, `pipeline_info`, ...) are modelled separately for the
`parse_filing` claims, since no analysis function reads them.
`financial_metrics` is an association list: a metric key is present only
when extraction succeeded (absence, not zero).
-/

structure Filing where
  filing_id : String
  form_type : String
  filing_date : String
  period_of_report : String
  company_name : String
  ticker : String
  content : String
  financial_metrics : List (String × ℚ)
deriving DecidableEq, Repr

/-- One row of `FilingParser.create_filings_summary`: identity fields plus
each metric value, `none` when the metric is absent from the filing. -/
structure SummaryRow where
  filing_id : String
  form_type : String
  filing_date : String
  period_of_report : String
  company_name : String
  ticker : String
  revenue : Option ℚ
  net_income : Option ℚ
  total_assets : Option ℚ
  cash_and_equivalents : Option ℚ
  research_development : Option ℚ
deriving DecidableEq, Repr

/-- Embedding of `create_filings_summary`: one row per stored filing, in store order;
`filing.get('financial_metrics', {}).get(metric)` is association-list
lookup. -/
def create_filings_summary (filings : List Filing) : List SummaryRow :=
  filings.map (fun f =>
    { filing_id := f.filing_id
      form_type := f.form_type
      filing_date := f.filing_date
      period_of_report := f.period_of_report
      company_name := f.company_name
      ticker := f.ticker
      revenue := f.financial_metrics.lookup "revenue"
      net_income := f.financial_metrics.lookup "net_income"
      total_assets := f.financial_metrics.lookup "total_assets"
      cash_and_equivalents := f.financial_metrics.lookup "cash_and_equivalents"
      research_development := f.financial_metrics.lookup "research_development" })

/-- A row of the financial timeline after
`pd.to_datetime(..., errors='coerce')`: dates become ordinal day values,
unparseable dates become the explicit no-date marker `none` (pandas
`NaT`). -/
structure TimelineRow where
  filing_id : String
  form_type : String
  filing_date : Option Int
  period_of_report : Option Int
  company_name : String
  ticker : String
  revenue : Option ℚ
  net_income : Option ℚ
  total_assets : Option ℚ
  cash_and_equivalents : Option ℚ
  research_development : Option ℚ
deriving DecidableEq, Repr

/-- Date order used by `sort_values('filing_date')`: ascending with the
pandas default `na_position='last'`, so `NaT` rows sort after all dated
rows. -/
def optDateLE (a b : Option Int) : Bool :=
  match a, b with
  | some x, some y => decide (x ≤ y)
  | some _, none => true
  | none, none => true
  | none, some _ => false

/-- Row order for the timeline sort. -/
def rowDateLE (a b : TimelineRow) : Prop := optDateLE a.filing_date b.filing_date = true

instance : DecidableRel rowDateLE := fun a b => by unfold rowDateLE; infer_instance

instance : IsTotal TimelineRow rowDateLE := by
  constructor
  intro a b
  unfold rowDateLE optDateLE
  rcases a.filing_date with _ | x <;> rcases b.filing_date with _ | y <;>
    (simp; try omega)

instance : IsTrans TimelineRow rowDateLE := by
  constructor
  intro a b c
  unfold rowDateLE optDateLE
  rcases a.filing_date with _ | x <;> rcases b.filing_date with _ | y <;>
    rcases c.filing_date with _ | z <;> (simp; try omega)

/-- Date coercion applied to one summary row. -/
def coerceRow (to_datetime : String → Option Int) (r : SummaryRow) : TimelineRow :=
  { filing_id := r.filing_id
    form_type := r.form_type
    filing_date := to_datetime r.filing_date
    period_of_report := to_datetime r.period_of_report
    company_name := r.company_name
    ticker := r.ticker
    revenue := r.revenue
    net_income := r.net_income
    total_assets := r.total_assets
    cash_and_equivalents := r.cash_and_equivalents
    research_development := r.research_development }

/-- Embedding of `DataManager.get_financial_timeline`, parameterised by `to_datetime`,
the library date coercion (`pd.to_datetime(..., errors='coerce')`):
build the summary, coerce the two date columns, sort ascending by filing
date.  pandas' default `quicksort` is not stable; only the sortedness and
the multiset of rows are relied on (the spec flags tie order as
ambiguous), and the embedding uses a stable insertion sort. -/
def get_financial_timeline (to_datetime : String → Option Int)
    (filings : List Filing) : List TimelineRow :=
  List.insertionSort rowDateLE ((create_filings_summary filings).map (coerceRow to_datetime))

/-!
## Trend Analyzer (`get_financial_metrics_trends`)

`volatility` (sample standard deviation of the growth rates) is omitted
from the embedded trend record: it needs a real square root, and no claim
mentions it.  All other fields of the source dict are carried.
-/

structure TrendInfo where
  latest_value : ℚ
  latest_date : Int
  average_growth_rate : PFloat
  latest_growth_rate : PFloat
  trend_direction : String
  data_points : ℕ
deriving DecidableEq, Repr

/-- Order for `metric_data.sort_values('filing_date')` on (date, value)
pairs. -/
def pairDateLE (a b : Int × ℚ) : Prop := a.1 ≤ b.1

instance : DecidableRel pairDateLE := fun a b => by unfold pairDateLE; infer_instance

instance : IsTotal (Int × ℚ) pairDateLE := by
  constructor; intro a b; unfold pairDateLE; omega

instance : IsTrans (Int × ℚ) pairDateLE := by
  constructor; intro a b c; unfold pairDateLE; omega

/-- The per-metric trend computation of `get_financial_metrics_trends`:
`financial_df[['filing_date', metric]].dropna()` keeps the rows where both
the filing date and the metric are present, `sort_values('filing_date')`
re-sorts them, and with more than one point the growth-rate column and the
trend dict are built. -/
def metricTrend (df : List TimelineRow) (get : TimelineRow → Option ℚ) :
    Option TrendInfo :=
  let md := df.filterMap (fun r =>
    match r.filing_date, get r with
    | some d, some v => some (d, v)
    | _, _ => none)
  let md := List.insertionSort pairDateLE md
  if 1 < md.length then
    let vals := md.map Prod.snd
    let gr := growthRates vals
    let lastGr := gr.getLast?.getD PFloat.nan
    some
      { latest_value := (md.getLast?.getD (0, 0)).2
        latest_date := (md.getLast?.getD (0, 0)).1
        average_growth_rate := pfMean gr
        latest_growth_rate := lastGr
        trend_direction := if lastGr.gtQ 0 then "increasing" else "decreasing"
        data_points := md.length }
  else none

/-- The trends dict keyed by metric name; a metric with fewer than two
usable points is absent. -/
structure Trends where
  revenue : Option TrendInfo
  net_income : Option TrendInfo
  total_assets : Option TrendInfo
  cash_and_equivalents : Option TrendInfo
  research_development : Option TrendInfo
deriving DecidableEq, Repr

/-- Embedding of `FinancialAnalyzer.get_financial_metrics_trends`.  On an empty
timeline the source returns `{}`; `metricTrend` is `none` on an empty
timeline, so the empty dict needs no separate branch. -/
def get_financial_metrics_trends (to_datetime : String → Option Int)
    (filings : List Filing) : Trends :=
  let df := get_financial_timeline to_datetime filings
  { revenue := metricTrend df (fun r => r.revenue)
    net_income := metricTrend df (fun r => r.net_income)
    total_assets := metricTrend df (fun r => r.total_assets)
    cash_and_equivalents := metricTrend df (fun r => r.cash_and_equivalents)
    research_development := metricTrend df (fun r => r.research_development) }

/-!
## Ratio Calculator (`calculate_financial_ratios`)

A ratio key is present only when both operands are non-null in the latest
timeline row (`pd.notna` checks); the division itself is numpy float64
division, which returns `inf`/`-inf`/NaN on a zero denominator and never
raises.
-/

structure Ratios where
  asset_turnover : Option PFloat
  net_profit_margin : Option PFloat
  rd_intensity : Option PFloat
  cash_ratio : Option PFloat
deriving DecidableEq, Repr

/-- Embedding of `FinancialAnalyzer.calculate_financial_ratios`: on an empty timeline
the dict is empty (all ratios absent); otherwise ratios are computed from
`financial_df.iloc[-1]`. -/
def calculate_financial_ratios (to_datetime : String → Option Int)
    (filings : List Filing) : Ratios :=
  match (get_financial_timeline to_datetime filings).getLast? with
  | none => { asset_turnover := none, net_profit_margin := none,
              rd_intensity := none, cash_ratio := none }
  | some latest =>
      { asset_turnover :=
          match latest.revenue, latest.total_assets with
          | some r, some a => some ((PFloat.finite r).div (PFloat.finite a))
          | _, _ => none
        net_profit_margin :=
          match latest.net_income, latest.revenue with
          | some n, some r => some ((PFloat.finite n).div (PFloat.finite r))
          | _, _ => none
        rd_intensity :=
          match latest.research_development, latest.revenue with
          | some d, some r => some ((PFloat.finite d).div (PFloat.finite r))
          | _, _ => none
        cash_ratio :=
          match latest.cash_and_equivalents, latest.total_assets with
          | some c, some a => some ((PFloat.finite c).div (PFloat.finite a))
          | _, _ => none }

/-!
## R&D and cash analyses
-/

/-- Embedding of `analyze_rd_investment` result dict (present only when
`rd_data = financial_df[['filing_date','research_development','revenue']]
.dropna()` is nonempty). -/
structure RdAnalysis where
  total_rd_investment : ℚ
  average_quarterly_rd : ℚ
  rd_growth_rate : PFloat
  rd_as_percentage_of_revenue : PFloat
  rd_trend : String
deriving DecidableEq, Repr

/-- Embedding of `FinancialAnalyzer.analyze_rd_investment`.  The timeline is already
date-sorted and `dropna` preserves row order, so no re-sort happens in the
source either. -/
def analyze_rd_investment (to_datetime : String → Option Int)
    (filings : List Filing) : Option RdAnalysis :=
  let rd := (get_financial_timeline to_datetime filings).filterMap (fun r =>
    match r.filing_date, r.research_development, r.revenue with
    | some _, some x, some v => some (x, v)
    | _, _, _ => none)
  match rd with
  | [] => none
  | first :: _ =>
      let xs := rd.map Prod.fst
      some
        { total_rd_investment := xs.sum
          average_quarterly_rd := xs.sum / rd.length
          rd_growth_rate := (pfMean (pctChange xs)).mul (PFloat.finite 100)
          rd_as_percentage_of_revenue :=
            (pfMean (rd.map (fun p =>
              (PFloat.finite p.1).div (PFloat.finite p.2)))).mul (PFloat.finite 100)
          rd_trend :=
            if first.1 < (rd.getLast?.getD first).1 then "increasing"
            else "decreasing" }

/-- Embedding of `analyze_cash_management` result dict.  `cash_volatility` (sample
standard deviation) is omitted: it needs a real square root and no claim
mentions it. -/
structure CashAnalysis where
  current_cash : ℚ
  cash_trend : String
  average_cash : ℚ
  cash_growth_rate : PFloat
deriving DecidableEq, Repr

/-- Embedding of `FinancialAnalyzer.analyze_cash_management`. -/
def analyze_cash_management (to_datetime : String → Option Int)
    (filings : List Filing) : Option CashAnalysis :=
  let cd := (get_financial_timeline to_datetime filings).filterMap (fun r =>
    match r.filing_date, r.cash_and_equivalents with
    | some _, some c => some c
    | _, _ => none)
  match cd with
  | [] => none
  | first :: _ =>
      some
        { current_cash := cd.getLast?.getD first
          cash_trend :=
            if first < cd.getLast?.getD first then "increasing" else "decreasing"
          average_cash := cd.sum / cd.length
          cash_growth_rate := (pfMean (pctChange cd)).mul (PFloat.finite 100) }

/-!
## Health Scorer (`get_financial_health_score`, `_get_grade`)
-/

/-- Embedding of `FinancialAnalyzer._get_grade`: fixed percentage thresholds. -/
def get_grade (percentage : ℚ) : String :=
  if 90 ≤ percentage then "A"
  else if 80 ≤ percentage then "B"
  else if 70 ≤ percentage then "C"
  else if 60 ≤ percentage then "D"
  else "F"

structure ScoreComponents where
  revenue_growth : ℕ
  rd_investment : ℕ
  cash_position : ℕ
  profitability : ℕ
  asset_efficiency : ℕ
  rd_intensity : ℕ
deriving DecidableEq, Repr

structure HealthScore where
  total_score : ℕ
  max_possible_score : ℕ
  percentage : ℚ
  grade : String
  scoreParts : ScoreComponents
  analysis_date : String
deriving DecidableEq, Repr

/-- Revenue-growth bucket (25 points; absent metric scores 0). -/
def scoreRevenueGrowth (trends : Trends) : ℕ :=
  match trends.revenue with
  | some t =>
      if t.latest_growth_rate.gtQ 20 then 25
      else if t.latest_growth_rate.gtQ 10 then 20
      else if t.latest_growth_rate.gtQ 0 then 15
      else 5
  | none => 0

/-- R&D investment bucket (20 points). -/
def scoreRdInvestment (rd_analysis : Option RdAnalysis) : ℕ :=
  match rd_analysis with
  | some r => if r.rd_trend = "increasing" then 20 else 15
  | none => 0

/-- Cash-position bucket (20 points). -/
def scoreCashPosition (cash_analysis : Option CashAnalysis) : ℕ :=
  match cash_analysis with
  | some c =>
      if 1000 < c.current_cash then 20
      else if 500 < c.current_cash then 15
      else 10
  | none => 0

/-- Profitability bucket (15 points). -/
def scoreProfitability (ratios : Ratios) : ℕ :=
  match ratios.net_profit_margin with
  | some m =>
      if m.gtQ (1 / 10) then 15
      else if m.gtQ 0 then 10
      else 5
  | none => 0

/-- Asset-efficiency bucket (10 points). -/
def scoreAssetEfficiency (ratios : Ratios) : ℕ :=
  match ratios.asset_turnover with
  | some t =>
      if t.gtQ (1 / 2) then 10
      else if t.gtQ (3 / 10) then 7
      else 5
  | none => 0

/-- R&D intensity bucket (10 points): `rd_analysis.get(..., 0) > 20` is
false for a missing analysis, so the `else` branch awards 5 even with no
data — this bucket has no zero branch. -/
def scoreRdIntensity (rd_analysis : Option RdAnalysis) : ℕ :=
  match rd_analysis with
  | some r =>
      if r.rd_as_percentage_of_revenue.gtQ 20 then 10
      else if r.rd_as_percentage_of_revenue.gtQ 10 then 7
      else 5
  | none => 5

/-- The state-free scoring combiner inside
`FinancialAnalyzer.get_financial_health_score`: the six weighted buckets,
evaluated independently and summed, with `max_score` accumulated alongside
(25 + 20 + 20 + 15 + 10 + 10).  Thresholds `0.1`, `0.5`, `0.3` are the
exact rationals; the double literals differ from them by less than
`2^-53`, which no claim can observe.  `now` stands for
`datetime.now().isoformat()`. -/
def health_score_from (now : String) (trends : Trends) (ratios : Ratios)
    (rd_analysis : Option RdAnalysis) (cash_analysis : Option CashAnalysis) :
    HealthScore :=
  let revenue_growth := scoreRevenueGrowth trends
  let rd_investment := scoreRdInvestment rd_analysis
  let cash_position := scoreCashPosition cash_analysis
  let profitability := scoreProfitability ratios
  let asset_efficiency := scoreAssetEfficiency ratios
  let rd_intensity := scoreRdIntensity rd_analysis
  let total_score := revenue_growth + rd_investment + cash_position +
    profitability + asset_efficiency + rd_intensity
  let max_score : ℕ := 25 + 20 + 20 + 15 + 10 + 10
  { total_score := total_score
    max_possible_score := max_score
    percentage := if 0 < max_score then (total_score : ℚ) / max_score * 100 else 0
    grade := if 0 < max_score then get_grade ((total_score : ℚ) / max_score * 100) else "F"
    scoreParts :=
      { revenue_growth := revenue_growth
        rd_investment := rd_investment
        cash_position := cash_position
        profitability := profitability
        asset_efficiency := asset_efficiency
        rd_intensity := rd_intensity }
    analysis_date := now }

/-- Embedding of `FinancialAnalyzer.get_financial_health_score`. -/
def get_financial_health_score (now : String) (to_datetime : String → Option Int)
    (filings : List Filing) : HealthScore :=
  health_score_from now
    (get_financial_metrics_trends to_datetime filings)
    (calculate_financial_ratios to_datetime filings)
    (analyze_rd_investment to_datetime filings)
    (analyze_cash_management to_datetime filings)

/-!
## Data summary and report (`get_data_summary`,
`generate_financial_report`)
-/

structure DataSummary where
  total_filings : ℕ
  filing_types : List (String × ℕ)
  date_range : Option (String × String)
  financial_metrics_available : ℕ
  last_updated : String
deriving DecidableEq, Repr

/-- One step of the form-type breakdown:
`summary['filing_types'][t] = summary['filing_types'].get(t, 0) + 1`. -/
def bumpCount (l : List (String × ℕ)) (k : String) : List (String × ℕ) :=
  if l.any (fun p => p.1 = k) then
    l.map (fun p => if p.1 = k then (p.1, p.2 + 1) else p)
  else l ++ [(k, 1)]

/-- Embedding of `DataManager.get_data_summary`, with `now` standing for
`datetime.now().isoformat()`.  With no filings stored the `if filings:`
block is skipped and the defaults (0, empty dict, empty dict, 0) stand;
here the empty computations produce exactly those defaults. -/
def get_data_summary (now : String) (filings : List Filing) : DataSummary :=
  let dates := (filings.map (fun f => f.filing_date)).filter (fun d => d ≠ "")
  { total_filings := filings.length
    filing_types := filings.foldl (fun acc f => bumpCount acc f.form_type) []
    date_range :=
      match dates with
      | [] => none
      | d :: ds => some (ds.foldl min d, ds.foldl max d)
    financial_metrics_available :=
      (filings.filter (fun f => f.financial_metrics ≠ [])).length
    last_updated := now }

/-- Embedding of `get_quarterly_performance`: the 10-Q rows of the timeline, re-sorted
by filing date.  The `*_qoq_change`/`*_qoq_absolute` columns are omitted:
no claim mentions them, and their NaN-handling default (`fill_method`) is
pandas-version dependent. -/
def get_quarterly_performance (to_datetime : String → Option Int)
    (filings : List Filing) : List TimelineRow :=
  List.insertionSort rowDateLE
    ((get_financial_timeline to_datetime filings).filter
      (fun r => r.form_type = "10-Q"))

/-- Embedding of `analyze_annual_performance`: as above for 10-K rows (`*_yoy_*`
columns omitted for the same reason). -/
def analyze_annual_performance (to_datetime : String → Option Int)
    (filings : List Filing) : List TimelineRow :=
  List.insertionSort rowDateLE
    ((get_financial_timeline to_datetime filings).filter
      (fun r => r.form_type = "10-K"))

structure Report where
  company : String
  ticker : String
  analysis_date : String
  data_summary : DataSummary
  financial_trends : Trends
  financial_ratios : Ratios
  rd_analysis : Option RdAnalysis
  cash_analysis : Option CashAnalysis
  financial_health_score : HealthScore
  quarterly_performance : List TimelineRow
  annual_performance : List TimelineRow
deriving DecidableEq, Repr

/-- Embedding of `FinancialAnalyzer.generate_financial_report`: the fixed-shape report
object.  `.to_dict('records') if not ... .empty else []` returns the same
row list either way, so it is the row list here. -/
def generate_financial_report (now : String) (to_datetime : String → Option Int)
    (filings : List Filing) : Report :=
  { company := "Alnylam Pharmaceuticals, Inc."
    ticker := "ALNY"
    analysis_date := now
    data_summary := get_data_summary now filings
    financial_trends := get_financial_metrics_trends to_datetime filings
    financial_ratios := calculate_financial_ratios to_datetime filings
    rd_analysis := analyze_rd_investment to_datetime filings
    cash_analysis := analyze_cash_management to_datetime filings
    financial_health_score := get_financial_health_score now to_datetime filings
    quarterly_performance := get_quarterly_performance to_datetime filings
    annual_performance := analyze_annual_performance to_datetime filings }

/-!
## Metric Extractor (`FilingParser._extract_financial_metrics`)

`re.findall(pattern, content, re.IGNORECASE)` is a library call: it is
modelled by an oracle `findall : String → List String` giving, for each
pattern, the list of captured strings in document order for the filing
text under consideration (case-insensitive matching is part of the library
contract).  Quantifying over the oracle quantifies over every filing text.
The numeric capture group of every pattern is
`([0-9,]+(?:\.[0-9]+)?)`, so after comma stripping a captured string
consists of digits and at most one dot; `pyFloatOfDigits` models Python
`float()` exactly on that domain (elsewhere `float()` syntax such as signs
or exponents is unreachable and unmodelled).
-/

/-- Embedding of `value_str = matches[0].replace(',', '')`. -/
def stripCommas (s : String) : String :=
  String.mk (s.toList.filter (fun c => c ≠ ','))

/-- Value of a digit list. -/
def digitsVal (cs : List Char) : ℕ :=
  cs.foldl (fun n c => 10 * n + (c.toNat - 48)) 0

/-- Python `float()` on digits-and-dot strings: `""` and `"."` raise
`ValueError` (here `none`); `"5"`, `"5."`, `".5"`, `"1234.5"` parse, with
the fractional digits scaled by the corresponding power of ten. -/
def pyFloatOfDigits (s : String) : Option ℚ :=
  let cs := s.toList
  if cs.any (fun c => !(c.isDigit || c = '.')) then none
  else if 2 ≤ (cs.filter (fun c => c = '.')).length then none
  else if !cs.any Char.isDigit then none
  else
    let ip := cs.takeWhile (fun c => c ≠ '.')
    let fp := (cs.dropWhile (fun c => c ≠ '.')).drop 1
    some ((digitsVal ip : ℚ) + (digitsVal fp : ℚ) / 10 ^ fp.length)

/-- Embedding of `FilingParser.financial_patterns`: the ordered regex pattern table,
verbatim. -/
def financial_patterns : List (String × List String) :=
  [ ("revenue",
      [ r"total\s+revenue[s]?\s*\$?([0-9,]+(?:\.[0-9]+)?)\s*(?:million|thousand|billion)?",
        r"net\s+revenue[s]?\s*\$?([0-9,]+(?:\.[0-9]+)?)\s*(?:million|thousand|billion)?",
        r"revenue[s]?\s*\$?([0-9,]+(?:\.[0-9]+)?)\s*(?:million|thousand|billion)?" ]),
    ("net_income",
      [ r"net\s+income\s*\$?([0-9,]+(?:\.[0-9]+)?)\s*(?:million|thousand|billion)?",
        r"net\s+earnings\s*\$?([0-9,]+(?:\.[0-9]+)?)\s*(?:million|thousand|billion)?" ]),
    ("total_assets",
      [ r"total\s+assets\s*\$?([0-9,]+(?:\.[0-9]+)?)\s*(?:million|thousand|billion)?" ]),
    ("cash_and_equivalents",
      [ r"cash\s+and\s+cash\s+equivalents\s*\$?([0-9,]+(?:\.[0-9]+)?)\s*(?:million|thousand|billion)?",
        r"cash\s+and\s+equivalents\s*\$?([0-9,]+(?:\.[0-9]+)?)\s*(?:million|thousand|billion)?" ]),
    ("research_development",
      [ r"research\s+and\s+development\s*\$?([0-9,]+(?:\.[0-9]+)?)\s*(?:million|thousand|billion)?",
        r"r\s*&\s*d\s*\$?([0-9,]+(?:\.[0-9]+)?)\s*(?:million|thousand|billion)?" ]) ]

/-- The inner pattern loop of `_extract_financial_metrics` for one metric:
`re.findall`; if there is a match, try `float` on the comma-stripped first
match — on success record it and `break`, on `ValueError` `continue` to
the next pattern; with no match, likewise move on. -/
def extract_metric (findall : String → List String) :
    List String → Option ℚ
  | [] => none
  | p :: ps =>
      match (findall p).head? with
      | none => extract_metric findall ps
      | some m =>
          match pyFloatOfDigits (stripCommas m) with
          | some v => some v
          | none => extract_metric findall ps

/-- Embedding of `FilingParser._extract_financial_metrics`: the `metrics` dict, one
entry per metric whose pattern loop succeeded, in table order. -/
def extract_financial_metrics (findall : String → List String) :
    List (String × ℚ) :=
  financial_patterns.foldl (fun acc mp =>
    match extract_metric findall mp.2 with
    | some v => acc ++ [(mp.1, v)]
    | none => acc) []

/-!
## Full-text search (`SearchAnalyzer.search_filings_content`)

`re.finditer` over the (possibly lowercased) content is a library call,
modelled by an oracle `count_matches : String → ℕ` giving the number of
matches of the escaped query in a filing's content.  The per-match context
windows are presentation data not consulted by the ranking and are
omitted.
-/

structure SearchResult where
  filing_id : String
  form_type : String
  filing_date : String
  period_of_report : String
  company_name : String
  match_count : ℕ
deriving DecidableEq, Repr

/-- Embedding of `results.sort(key=lambda x: (x['match_count'], x['filing_date']),
reverse=True)`: `a` may precede `b` iff `a`'s key tuple is ≥ `b`'s, i.e.
strictly more matches, or equal matches and a lexicographically ≥ date
string (ISO dates compare like dates). -/
def rankLE (a b : SearchResult) : Prop :=
  b.match_count < a.match_count ∨
    (b.match_count = a.match_count ∧ b.filing_date ≤ a.filing_date)

instance : DecidableRel rankLE := fun a b => by unfold rankLE; infer_instance

instance : IsTotal SearchResult rankLE := by
  constructor
  intro a b
  unfold rankLE
  rcases Nat.lt_trichotomy a.match_count b.match_count with h | h | h
  · exact Or.inr (Or.inl h)
  · rcases le_total a.filing_date b.filing_date with hd | hd
    · exact Or.inr (Or.inr ⟨h, hd⟩)
    · exact Or.inl (Or.inr ⟨h.symm, hd⟩)
  · exact Or.inl (Or.inl h)

instance : IsTrans SearchResult rankLE := by
  constructor
  intro a b c hab hbc
  unfold rankLE at hab hbc ⊢
  rcases hab with h1 | ⟨h1, h1d⟩ <;> rcases hbc with h2 | ⟨h2, h2d⟩
  · exact Or.inl (h2.trans h1)
  · exact Or.inl (h2 ▸ h1)
  · exact Or.inl (h1 ▸ h2)
  · exact Or.inr ⟨h2.trans h1, le_trans h2d h1d⟩

/-- Embedding of `SearchAnalyzer.search_filings_content`, parameterised by the match
counter: filter by form-type allow-list, skip empty content, keep filings
with at least one match, then sort by (match count, filing date)
descending.  Python's sort is stable; so is the insertion sort used
here. -/
def search_filings_content (form_types : List String)
    (count_matches : String → ℕ) (filings : List Filing) : List SearchResult :=
  let filtered := filings.filter (fun f => form_types.contains f.form_type)
  let results := filtered.filterMap (fun f =>
    if f.content = "" then none
    else if 0 < count_matches f.content then
      some
        { filing_id := f.filing_id
          form_type := f.form_type
          filing_date := f.filing_date
          period_of_report := f.period_of_report
          company_name := f.company_name
          match_count := count_matches f.content }
    else none)
  List.insertionSort rankLE results

/-!
## `FilingParser.parse_filing` as a keyed record

C-claims about the *key set* of the parsed dict need the dict itself, so
`parse_filing` is also modelled as an association list in insertion order,
with `dict.update` semantics (`pyUpdate`).  The business-signal extraction
(`_extract_business_info`) uses its own `re.findall` oracle over the same
content.
-/

/-- A value of the parsed-filing dict. -/
inductive PVal where
  | str (v : String)
  | nums (m : List (String × ℚ))
  | strs (l : List String)
deriving DecidableEq, Repr

/-- The raw filing dict handed to `parse_filing` (`filing_data.get(k, '')`
reads an optional field). -/
structure FilingInput where
  id : Option String
  formType : Option String
  filingDate : Option String
  periodOfReport : Option String
  companyName : Option String
  ticker : Option String
  filingUrl : Option String
  content : Option String
deriving DecidableEq, Repr

/-- Python `dict[k] = v` / single-key `dict.update`: replace in place when
the key exists, else append. -/
def pyUpdate (d : List (String × PVal)) (k : String) (v : PVal) :
    List (String × PVal) :=
  if d.any (fun p => p.1 = k) then
    d.map (fun p => if p.1 = k then (k, v) else p)
  else d ++ [(k, v)]

def pipeline_patterns : List String :=
  [ "clinical\\s+trial[s]?\\s*[:\\-]?\\s*([^.]\x7b50,200\x7d)",
    "pipeline\\s*[:\\-]?\\s*([^.]\x7b50,200\x7d)",
    "drug\\s+development\\s*[:\\-]?\\s*([^.]\x7b50,200\x7d)" ]

def partnership_patterns : List String :=
  [ "collaboration[s]?\\s*[:\\-]?\\s*([^.]\x7b50,200\x7d)",
    "partnership[s]?\\s*[:\\-]?\\s*([^.]\x7b50,200\x7d)",
    "licensing\\s*[:\\-]?\\s*([^.]\x7b50,200\x7d)" ]

def patent_patterns : List String :=
  [ "patent[s]?\\s*[:\\-]?\\s*([^.]\x7b50,200\x7d)",
    "intellectual\\s+property\\s*[:\\-]?\\s*([^.]\x7b50,200\x7d)" ]

/-- Embedding of `FilingParser._extract_business_info`: per category, concatenate the
first 3 matches of each pattern; highlights/risks/overview stay empty. -/
def extract_business_info (findall : String → List String) :
    List (String × PVal) :=
  [ ("key_highlights", PVal.strs []),
    ("risk_factors", PVal.strs []),
    ("business_overview", PVal.str ""),
    ("pipeline_info", PVal.strs
      (pipeline_patterns.foldl (fun acc p => acc ++ (findall p).take 3) [])),
    ("partnerships", PVal.strs
      (partnership_patterns.foldl (fun acc p => acc ++ (findall p).take 3) [])),
    ("patents", PVal.strs
      (patent_patterns.foldl (fun acc p => acc ++ (findall p).take 3) [])) ]

/-- The key set of the dict `parse_filing` initialises, in source
order. -/
def parsedFilingKeys : List String :=
  [ "filing_id", "form_type", "filing_date", "period_of_report",
    "company_name", "ticker", "filing_url", "content", "financial_metrics",
    "key_highlights", "risk_factors", "business_overview", "pipeline_info",
    "partnerships", "patents" ]

/-- The `parsed_data` dict as initialised at the top of
`FilingParser.parse_filing`, in source order. -/
def parsed_data_init (input : FilingInput) : List (String × PVal) :=
  [ ("filing_id", PVal.str (input.id.getD "")),
    ("form_type", PVal.str (input.formType.getD "")),
    ("filing_date", PVal.str (input.filingDate.getD "")),
    ("period_of_report", PVal.str (input.periodOfReport.getD "")),
    ("company_name", PVal.str (input.companyName.getD "")),
    ("ticker", PVal.str (input.ticker.getD "")),
    ("filing_url", PVal.str (input.filingUrl.getD "")),
    ("content", PVal.str ""),
    ("financial_metrics", PVal.nums []),
    ("key_highlights", PVal.strs []),
    ("risk_factors", PVal.strs []),
    ("business_overview", PVal.str ""),
    ("pipeline_info", PVal.strs []),
    ("partnerships", PVal.strs []),
    ("patents", PVal.strs []) ]

/-- Embedding of `FilingParser.parse_filing`: build the fixed dict, then — only when
the input has a `content` field — store the content and merge the two
extraction dicts over it. -/
def parse_filing (findall : String → List String) (input : FilingInput) :
    List (String × PVal) :=
  match input.content with
  | none => parsed_data_init input
  | some c =>
      let d1 := pyUpdate (parsed_data_init input) "content" (PVal.str c)
      let d2 := pyUpdate d1 "financial_metrics"
        (PVal.nums (extract_financial_metrics findall))
      (extract_business_info findall).foldl
        (fun acc kv => pyUpdate acc kv.1 kv.2) d2

/-!
## Theorems
-/

/-- Rank of a letter grade under F < D < C < B < A. -/
def gradeRank (g : String) : ℕ :=
  if g = "A" then 4
  else if g = "B" then 3
  else if g = "C" then 2
  else if g = "D" then 1
  else 0

theorem scoreRevenueGrowth_le (trends : Trends) : scoreRevenueGrowth trends ≤ 25 := by
  rcases h : trends.revenue with _ | t
  · simp [scoreRevenueGrowth, h]
  · simp only [scoreRevenueGrowth, h]
    split_ifs <;> omega

theorem scoreRdInvestment_le (rd : Option RdAnalysis) : scoreRdInvestment rd ≤ 20 := by
  rcases rd with _ | r
  · simp [scoreRdInvestment]
  · simp only [scoreRdInvestment]
    split_ifs <;> omega

theorem scoreCashPosition_le (cash : Option CashAnalysis) : scoreCashPosition cash ≤ 20 := by
  rcases cash with _ | c
  · simp [scoreCashPosition]
  · simp only [scoreCashPosition]
    split_ifs <;> omega

theorem scoreProfitability_le (ratios : Ratios) : scoreProfitability ratios ≤ 15 := by
  rcases h : ratios.net_profit_margin with _ | m
  · simp [scoreProfitability, h]
  · simp only [scoreProfitability, h]
    split_ifs <;> omega

theorem scoreAssetEfficiency_le (ratios : Ratios) : scoreAssetEfficiency ratios ≤ 10 := by
  rcases h : ratios.asset_turnover with _ | t
  · simp [scoreAssetEfficiency, h]
  · simp only [scoreAssetEfficiency, h]
    split_ifs <;> omega

theorem scoreRdIntensity_le (rd : Option RdAnalysis) : scoreRdIntensity rd ≤ 10 := by
  rcases rd with _ | r
  · simp [scoreRdIntensity]
  · simp only [scoreRdIntensity]
    split_ifs <;> omega

/-- The total score is bounded by the accumulated maximum. -/
theorem health_total_le_100 (now : String) (trends : Trends) (ratios : Ratios)
    (rd : Option RdAnalysis) (cash : Option CashAnalysis) :
    (health_score_from now trends ratios rd cash).total_score ≤ 100 := by
  have h1 := scoreRevenueGrowth_le trends
  have h2 := scoreRdInvestment_le rd
  have h3 := scoreCashPosition_le cash
  have h4 := scoreProfitability_le ratios
  have h5 := scoreAssetEfficiency_le ratios
  have h6 := scoreRdIntensity_le rd
  show scoreRevenueGrowth trends + scoreRdInvestment rd + scoreCashPosition cash +
    scoreProfitability ratios + scoreAssetEfficiency ratios + scoreRdIntensity rd ≤ 100
  omega

/-- C8: for every combination of trends, ratios, R&D analysis and cash
analysis, the Health Scorer's `max_possible_score` is 100 and its
`percentage` (`total_score / max_possible_score * 100`) lies in
`[0, 100]`. -/
theorem c8_health_percentage_bounds (now : String) (trends : Trends)
    (ratios : Ratios) (rd : Option RdAnalysis) (cash : Option CashAnalysis) :
    (health_score_from now trends ratios rd cash).max_possible_score = 100 ∧
      0 ≤ (health_score_from now trends ratios rd cash).percentage ∧
      (health_score_from now trends ratios rd cash).percentage ≤ 100 := by
  have htot := health_total_le_100 now trends ratios rd cash
  have hmax : (health_score_from now trends ratios rd cash).max_possible_score = 100 := rfl
  have hperc : (health_score_from now trends ratios rd cash).percentage =
      ((health_score_from now trends ratios rd cash).total_score : ℚ) / 100 * 100 := by
    unfold health_score_from
    norm_num
  refine ⟨hmax, ?_, ?_⟩
  · rw [hperc]
    positivity
  · rw [hperc, div_mul_cancel₀ _ (by norm_num : (100 : ℚ) ≠ 0)]
    exact_mod_cast htot

/-- C9: `_get_grade` is monotone — for percentages `p1 ≤ p2` the grade of
`p1` is at most the grade of `p2` under F < D < C < B < A — and every
input receives exactly one of the five letter grades. -/
theorem c9_grade_monotone (p1 p2 : ℚ) :
    (p1 ≤ p2 → gradeRank (get_grade p1) ≤ gradeRank (get_grade p2)) ∧
      (get_grade p1 = "A" ∨ get_grade p1 = "B" ∨ get_grade p1 = "C" ∨
        get_grade p1 = "D" ∨ get_grade p1 = "F") := by
  constructor
  · intro h
    unfold get_grade
    split_ifs <;> first | decide | linarith
  · unfold get_grade
    split_ifs <;> simp

/-- Witness for C9 at 50 ≤ 95 (grade F versus grade A). -/
theorem c9_grade_monotone_witness :
    gradeRank (get_grade 50) ≤ gradeRank (get_grade 95) :=
  (c9_grade_monotone 50 95).1 (by norm_num)

/-- C1 counterexample: with no filings stored the data summary does report
`total_filings = 0` and the grade is "F", but the health-score percentage
is 5, not 0 — the R&D-intensity bucket's `else` branch awards 5 points
even with no data, so the claim's "percentage equals 0" is false. -/
theorem c1_counterexample :
    (generate_financial_report "now" (fun _ => none) []).data_summary.total_filings = 0 ∧
      (generate_financial_report "now" (fun _ => none) []).financial_health_score.percentage = 5 ∧
      (generate_financial_report "now" (fun _ => none) []).financial_health_score.percentage ≠ 0 := by
  refine ⟨rfl, ?_, ?_⟩ <;>
    norm_num [generate_financial_report, get_financial_health_score,
      health_score_from, get_financial_metrics_trends, get_financial_timeline,
      create_filings_summary, metricTrend, calculate_financial_ratios,
      analyze_rd_investment, analyze_cash_management, scoreRevenueGrowth,
      scoreRdInvestment, scoreCashPosition, scoreProfitability,
      scoreAssetEfficiency, scoreRdIntensity]

/-- C1 (amended): when no filings are stored, the data summary reports
`total_filings = 0`, the health score's percentage equals 5 (the
R&D-intensity bucket's `else` branch awards 5 points even with no data)
with letter grade "F", and `generate_financial_report` still returns the
complete report object — every section present, empty or zero-valued —
without any error. -/
theorem c1_empty_store_report :
    generate_financial_report "now" (fun _ => none) [] =
      { company := "Alnylam Pharmaceuticals, Inc."
        ticker := "ALNY"
        analysis_date := "now"
        data_summary :=
          { total_filings := 0, filing_types := [], date_range := none,
            financial_metrics_available := 0, last_updated := "now" }
        financial_trends :=
          { revenue := none, net_income := none, total_assets := none,
            cash_and_equivalents := none, research_development := none }
        financial_ratios :=
          { asset_turnover := none, net_profit_margin := none,
            rd_intensity := none, cash_ratio := none }
        rd_analysis := none
        cash_analysis := none
        financial_health_score :=
          { total_score := 5, max_possible_score := 100, percentage := 5,
            grade := "F",
            scoreParts :=
              { revenue_growth := 0, rd_investment := 0, cash_position := 0,
                profitability := 0, asset_efficiency := 0, rd_intensity := 5 },
            analysis_date := "now" }
        quarterly_performance := []
        annual_performance := [] } := by
  norm_num [generate_financial_report, get_data_summary,
    get_financial_health_score, health_score_from,
    get_financial_metrics_trends, get_financial_timeline,
    create_filings_summary, metricTrend, calculate_financial_ratios,
    analyze_rd_investment, analyze_cash_management, scoreRevenueGrowth,
    scoreRdInvestment, scoreCashPosition, scoreProfitability,
    scoreAssetEfficiency, scoreRdIntensity, get_quarterly_performance,
    analyze_annual_performance, get_grade, Report.mk.injEq,
    HealthScore.mk.injEq, ScoreComponents.mk.injEq, DataSummary.mk.injEq]

/-- Date oracle for the concrete evaluations: two parseable filing
dates. -/
def sampleToDatetime : String → Option Int := fun s =>
  if s = "2020-01-01" then some 1
  else if s = "2021-01-01" then some 2
  else none

/-- A stored filing whose revenue is exactly 0. -/
def filingRev0 : Filing :=
  { filing_id := "f1", form_type := "10-K", filing_date := "2020-01-01",
    period_of_report := "2019-12-31",
    company_name := "Alnylam Pharmaceuticals, Inc.",
    ticker := "ALNY", content := "x", financial_metrics := [("revenue", 0)] }

/-- A later stored filing with revenue 5. -/
def filingRev5 : Filing :=
  { filing_id := "f2", form_type := "10-K", filing_date := "2021-01-01",
    period_of_report := "2020-12-31",
    company_name := "Alnylam Pharmaceuticals, Inc.",
    ticker := "ALNY", content := "x", financial_metrics := [("revenue", 5)] }

/-- C2, evaluated at the failing input: with a revenue series whose prior
value is exactly 0 (0 then 5), the Trend Analyzer's growth rate at the
second point is `inf` — pandas `pct_change` divides by the zero prior
value and surfaces an unmarked infinity (also as `latest_growth_rate` and
`average_growth_rate`) instead of the undefined/absent value the spec
requires; no exception is raised (the function is total). -/
theorem c2_zero_prior_gives_inf :
    (get_financial_metrics_trends sampleToDatetime [filingRev0, filingRev5]).revenue =
        some { latest_value := 5, latest_date := 2,
               average_growth_rate := PFloat.inf,
               latest_growth_rate := PFloat.inf,
               trend_direction := "increasing", data_points := 2 } ∧
      growthRates [0, 5] = [PFloat.nan, PFloat.inf] := by
  constructor
  · norm_num [get_financial_metrics_trends, get_financial_timeline,
      create_filings_summary, metricTrend, sampleToDatetime, filingRev0,
      filingRev5, List.insertionSort, List.orderedInsert, rowDateLE,
      optDateLE, pairDateLE, List.lookup, growthRates, pctChange,
      PFloat.div, PFloat.sub, PFloat.mul, pfMean, PFloat.isNaN,
      PFloat.isPosInf, PFloat.isNegInf, PFloat.gtQ, coerceRow, List.getLast?]
  · norm_num [growthRates, pctChange, PFloat.div, PFloat.sub, PFloat.mul]

/-- A stored filing whose total assets are exactly 0 while revenue is
present. -/
def filingAssets0 : Filing :=
  { filing_id := "f3", form_type := "10-K", filing_date := "2020-01-01",
    period_of_report := "2019-12-31",
    company_name := "Alnylam Pharmaceuticals, Inc.",
    ticker := "ALNY", content := "x",
    financial_metrics := [("revenue", 5), ("total_assets", 0)] }

/-- C3, evaluated at the failing input: in the latest timeline row both
operands of `asset_turnover` are present and the denominator
(`total_assets`) is 0; the Ratio Calculator returns the unmarked infinity
`revenue / total_assets = inf` (numpy float64 division raises no error),
not a defined "undefined ratio" outcome. -/
theorem c3_zero_denominator_gives_inf :
    calculate_financial_ratios sampleToDatetime [filingAssets0] =
      { asset_turnover := some PFloat.inf, net_profit_margin := none,
        rd_intensity := none, cash_ratio := none } := by
  decide

/-- Filing A of the spec's ranking example: 3 matches, dated
2020-01-01. -/
def filingA3 : Filing :=
  { filing_id := "A", form_type := "10-K", filing_date := "2020-01-01",
    period_of_report := "2019-12-31",
    company_name := "Alnylam Pharmaceuticals, Inc.",
    ticker := "ALNY", content := "a", financial_metrics := [] }

/-- Filing B of the spec's ranking example: 1 match, dated 2024-01-01. -/
def filingB1 : Filing :=
  { filing_id := "B", form_type := "10-K", filing_date := "2024-01-01",
    period_of_report := "2023-12-31",
    company_name := "Alnylam Pharmaceuticals, Inc.",
    ticker := "ALNY", content := "b", financial_metrics := [] }

/-- Match counter for the ranking example: 3 matches in filing A's
content, 1 in filing B's. -/
def cmAB : String → ℕ := fun s => if s = "a" then 3 else 1

/-- C6: search results are sorted by the descending (match count, filing
date) key — so for any two result positions `i < j` the later entry never
has more matches, i.e. match count is the primary key and the date only a
tie-break — and on the spec's example the 3-match filing dated 2020-01-01
ranks before the 1-match filing dated 2024-01-01 even though the latter is
newer. -/
theorem c6_search_ranking (form_types : List String)
    (count_matches : String → ℕ) (filings : List Filing) :
    List.Sorted rankLE (search_filings_content form_types count_matches filings) ∧
      (∀ (i j : ℕ)
        (hi : i < (search_filings_content form_types count_matches filings).length)
        (hj : j < (search_filings_content form_types count_matches filings).length),
        i < j →
          ((search_filings_content form_types count_matches filings).get ⟨j, hj⟩).match_count ≤
            ((search_filings_content form_types count_matches filings).get ⟨i, hi⟩).match_count) ∧
      search_filings_content ["10-K"] cmAB [filingB1, filingA3] =
        [ { filing_id := "A", form_type := "10-K", filing_date := "2020-01-01",
            period_of_report := "2019-12-31",
            company_name := "Alnylam Pharmaceuticals, Inc.", match_count := 3 },
          { filing_id := "B", form_type := "10-K", filing_date := "2024-01-01",
            period_of_report := "2023-12-31",
            company_name := "Alnylam Pharmaceuticals, Inc.", match_count := 1 } ] := by
  have hs : List.Sorted rankLE (search_filings_content form_types count_matches filings) :=
    List.sorted_insertionSort rankLE _
  refine ⟨hs, ?_, by decide⟩
  intro i j hi hj hij
  have h := List.Sorted.rel_get_of_lt hs
    (show (⟨i, hi⟩ : Fin (search_filings_content form_types count_matches filings).length) <
      ⟨j, hj⟩ from hij)
  rcases h with h | ⟨h, _⟩
  · exact le_of_lt h
  · exact le_of_eq h

/-- Witness for C6 at the concrete two-filing example, positions 0 < 1. -/
theorem c6_search_ranking_witness :
    ((search_filings_content ["10-K"] cmAB [filingB1, filingA3]).get
        ⟨1, by decide⟩).match_count ≤
      ((search_filings_content ["10-K"] cmAB [filingB1, filingA3]).get
        ⟨0, by decide⟩).match_count :=
  (c6_search_ranking ["10-K"] cmAB [filingB1, filingA3]).2.1 0 1 (by decide)
    (by decide) (by decide)

/-- A stored filing whose filing date does not parse as a date. -/
def filingNoDate : Filing :=
  { filing_id := "nd", form_type := "8-K", filing_date := "not-a-date",
    period_of_report := "", company_name := "Alnylam Pharmaceuticals, Inc.",
    ticker := "ALNY", content := "x", financial_metrics := [] }

/-- C7: for every (possibly unordered) set of stored filing records the
Timeline Aggregator's output is sorted non-decreasing by filing date
(no-date rows ordered last, per pandas `na_position='last'`), it is a
permutation of one projected row per stored filing (nothing dropped), and
a record whose filing date does not parse is retained with the explicit
no-date marker `none`. -/
theorem c7_timeline_sorted_and_retained (to_datetime : String → Option Int)
    (filings : List Filing) :
    List.Sorted rowDateLE (get_financial_timeline to_datetime filings) ∧
      (get_financial_timeline to_datetime filings).Perm
        ((create_filings_summary filings).map (coerceRow to_datetime)) ∧
      ∀ f ∈ filings, to_datetime f.filing_date = none →
        ∃ r ∈ get_financial_timeline to_datetime filings,
          r.filing_id = f.filing_id ∧ r.filing_date = none := by
  refine ⟨List.sorted_insertionSort rowDateLE _, List.perm_insertionSort rowDateLE _, ?_⟩
  intro f hf hnone
  have hmem : coerceRow to_datetime
      { filing_id := f.filing_id
        form_type := f.form_type
        filing_date := f.filing_date
        period_of_report := f.period_of_report
        company_name := f.company_name
        ticker := f.ticker
        revenue := f.financial_metrics.lookup "revenue"
        net_income := f.financial_metrics.lookup "net_income"
        total_assets := f.financial_metrics.lookup "total_assets"
        cash_and_equivalents := f.financial_metrics.lookup "cash_and_equivalents"
        research_development := f.financial_metrics.lookup "research_development" } ∈
      (create_filings_summary filings).map (coerceRow to_datetime) :=
    List.mem_map_of_mem (coerceRow to_datetime)
      (List.mem_map_of_mem _ hf)
  refine ⟨_, (List.mem_insertionSort rowDateLE).mpr hmem, rfl, ?_⟩
  simpa [coerceRow] using hnone

/-- Witness for C7: the unparseable-date record is retained with the
no-date marker. -/
theorem c7_timeline_sorted_and_retained_witness :
    ∃ r ∈ get_financial_timeline sampleToDatetime [filingNoDate],
      r.filing_id = filingNoDate.filing_id ∧ r.filing_date = none :=
  (c7_timeline_sorted_and_retained sampleToDatetime [filingNoDate]).2.2
    filingNoDate (by decide) (by decide)

/-- The attempt one pattern makes: first match in document order, commas
stripped, parsed as a float. -/
def patternAttempt (findall : String → List String) (p : String) : Option ℚ :=
  (findall p).head?.bind (fun m => pyFloatOfDigits (stripCommas m))

/-- C4: for every filing text (every `findall` oracle) and pattern list,
the Metric Extractor (a) skips a pattern with no match, (b) on the first
pattern with a match takes the first match, strips commas, parses it and
stops — ignoring the remaining patterns — and (c) when that parse fails
falls through to the next pattern instead of abandoning the metric;
globally the result is the first successful attempt in pattern order. -/
theorem c4_extractor_pattern_order (findall : String → List String)
    (p : String) (ps : List String) :
    (findall p = [] → extract_metric findall (p :: ps) = extract_metric findall ps) ∧
      (∀ m, (findall p).head? = some m →
        (∀ v, pyFloatOfDigits (stripCommas m) = some v →
          extract_metric findall (p :: ps) = some v) ∧
        (pyFloatOfDigits (stripCommas m) = none →
          extract_metric findall (p :: ps) = extract_metric findall ps)) ∧
      (∀ pats : List String,
        extract_metric findall pats = pats.findSome? (patternAttempt findall)) := by
  refine ⟨?_, ?_, ?_⟩
  · intro h
    simp [extract_metric, h]
  · intro m hm
    constructor
    · intro v hv
      simp [extract_metric, hm, hv]
    · intro hv
      simp [extract_metric, hm, hv]
  · intro pats
    induction pats with
    | nil => simp [extract_metric]
    | cons q qs ih =>
      rw [List.findSome?_cons]
      rcases hq2 : findall q with _ | ⟨m2, ms⟩
      · simp [extract_metric, hq2, ih, patternAttempt]
      · cases hv : pyFloatOfDigits (stripCommas m2) with
        | none => simp [extract_metric, hq2, hv, ih, patternAttempt]
        | some v => simp [extract_metric, hq2, hv, patternAttempt]

/-- Demonstration oracle for C4: the first pattern's first match is all
commas (float parse fails), the second pattern's first match is
`"1,234"`. -/
def findallDemo : String → List String := fun p =>
  if p = "p1" then [",,", "7"] else if p = "p2" then ["1,234", "9"] else []

/-- Witness for C4: the first pattern matches but its first match fails to
parse, so the extractor falls through and returns the second pattern's
parsed first match. -/
theorem c4_extractor_pattern_order_witness :
    extract_metric findallDemo ["p1", "p2"] = some 1234 := by
  have h1 := ((c4_extractor_pattern_order findallDemo "p1" ["p2"]).2.1 ",,"
    (by decide)).2 (by decide)
  have h2 := ((c4_extractor_pattern_order findallDemo "p2" []).2.1 "1,234"
    (by decide)).1 1234 (by simp +decide [pyFloatOfDigits, digitsVal, stripCommas])
  rw [h1, h2]

/-- Any entry of the metrics dict built by `extract_financial_metrics`
comes from the starting accumulator or from a metric whose pattern loop
succeeded. -/
theorem mem_extract_fold (findall : String → List String)
    (L : List (String × List String)) :
    ∀ (acc : List (String × ℚ)) (p : String × ℚ),
      p ∈ L.foldl (fun acc2 mp =>
        match extract_metric findall mp.2 with
        | some v => acc2 ++ [(mp.1, v)]
        | none => acc2) acc →
      p ∈ acc ∨ ∃ e ∈ L, e.1 = p.1 ∧ extract_metric findall e.2 = some p.2 := by
  induction L with
  | nil =>
    intro acc p hp
    exact Or.inl (by simpa using hp)
  | cons e L ih =>
    intro acc p hp
    rw [List.foldl_cons] at hp
    cases hx : extract_metric findall e.2 with
    | none =>
      rw [hx] at hp
      rcases ih acc p hp with h | ⟨d, hd, hdk, hdx⟩
      · exact Or.inl h
      · exact Or.inr ⟨d, List.mem_cons_of_mem e hd, hdk, hdx⟩
    | some v =>
      rw [hx] at hp
      rcases ih (acc ++ [(e.1, v)]) p hp with h | ⟨d, hd, hdk, hdx⟩
      · rcases List.mem_append.mp h with h2 | h2
        · exact Or.inl h2
        · have hpe : p = (e.1, v) := by simpa using h2
          refine Or.inr ⟨e, List.mem_cons_self e L, ?_, ?_⟩
          · rw [hpe]
          · rw [hpe, hx]
      · exact Or.inr ⟨d, List.mem_cons_of_mem e hd, hdk, hdx⟩

/-- In a table with pairwise-distinct keys, a key determines its pattern
list. -/
theorem keyed_table_unique {l : List (String × List String)}
    (h : (l.map Prod.fst).Nodup) {k : String} {v w : List String}
    (hv : (k, v) ∈ l) (hw : (k, w) ∈ l) : v = w := by
  induction l with
  | nil => cases hv
  | cons e l ih =>
    rw [List.map_cons, List.nodup_cons] at h
    rcases List.mem_cons.mp hv with hv1 | hv1 <;>
      rcases List.mem_cons.mp hw with hw1 | hw1
    · simpa using hv1.trans hw1.symm
    · exfalso
      apply h.1
      have hk : e.1 = k := by rw [← hv1]
      rw [hk]
      exact List.mem_map_of_mem Prod.fst hw1
    · exfalso
      apply h.1
      have hk : e.1 = k := by rw [← hw1]
      rw [hk]
      exact List.mem_map_of_mem Prod.fst hv1
    · exact ih h.2 hv1 hw1

/-- A metric whose every pattern attempt fails is not extracted. -/
theorem extract_metric_none (findall : String → List String)
    (pats : List String) (h : ∀ p ∈ pats, patternAttempt findall p = none) :
    extract_metric findall pats = none := by
  induction pats with
  | nil => rfl
  | cons q qs ih =>
    have hq := h q (List.mem_cons_self q qs)
    have htail := ih (fun p hp => h p (List.mem_cons_of_mem q hp))
    rcases hfq : findall q with _ | ⟨m, ms⟩
    · simpa [extract_metric, hfq] using htail
    · have hparse : pyFloatOfDigits (stripCommas m) = none := by
        simpa [patternAttempt, hfq] using hq
      simpa [extract_metric, hfq, hparse] using htail

/-- C5: for every filing text (every `findall` oracle) and every metric of
the pattern table, if no pattern for that metric yields a successfully
parsed first match, the metric is entirely absent from the extracted
mapping — never present (in particular never present with value 0), and no
error is produced (the extractor is total). -/
theorem c5_missing_metric_absent (findall : String → List String)
    (name : String) (pats : List String)
    (hmem : (name, pats) ∈ financial_patterns)
    (hfail : ∀ p ∈ pats, patternAttempt findall p = none) :
    (extract_financial_metrics findall).lookup name = none := by
  have hext : extract_metric findall pats = none :=
    extract_metric_none findall pats hfail
  have hnodup : (financial_patterns.map Prod.fst).Nodup := by decide
  rw [List.lookup_eq_none_iff]
  intro p hp
  rcases mem_extract_fold findall financial_patterns [] p hp with h | ⟨e, he, hek, hex⟩
  · cases h
  · by_contra hcontra
    have hkeq : name = p.1 := by simpa using hcontra
    have hmem2 : (name, e.2) ∈ financial_patterns := by
      have : e = (name, e.2) := by
        rw [Prod.ext_iff]
        exact ⟨hek.trans hkeq.symm, rfl⟩
      exact this ▸ he
    have : e.2 = pats := keyed_table_unique hnodup hmem2 hmem
    rw [this, hext] at hex
    exact Option.noConfusion hex

/-- Witness for C5: with a text in which nothing matches, `revenue` is
absent from the extracted metrics. -/
theorem c5_missing_metric_absent_witness :
    (extract_financial_metrics (fun _ => [])).lookup "revenue" = none := by
  apply c5_missing_metric_absent (fun _ => []) "revenue"
  · exact List.mem_cons_self _ _
  · intro p hp
    rfl

/-- Updating an existing key with `pyUpdate` leaves the key list
unchanged. -/
theorem pyUpdate_keys (d : List (String × PVal)) (k : String) (v : PVal)
    (h : k ∈ d.map Prod.fst) :
    (pyUpdate d k v).map Prod.fst = d.map Prod.fst := by
  have hany : d.any (fun p => p.1 = k) = true := by
    rw [List.any_eq_true]
    rcases List.mem_map.mp h with ⟨p, hp, hpk⟩
    exact ⟨p, hp, by simp [hpk]⟩
  unfold pyUpdate
  rw [if_pos hany, List.map_map]
  apply List.map_congr_left
  intro p hp
  by_cases hpk : p.1 = k
  · simp [hpk]
  · simp [hpk]

/-- C10: for every raw filing dict (any fields missing, any content),
`parse_filing` returns a record with exactly the fixed fifteen-key shape,
and when the input has no `content` field the content is the empty string
and financial metrics, pipeline info, partnerships and patents are all
empty. -/
theorem c10_parse_filing_shape (findall : String → List String)
    (input : FilingInput) :
    (parse_filing findall input).map Prod.fst = parsedFilingKeys ∧
      (input.content = none →
        (parse_filing findall input).lookup "content" = some (PVal.str "") ∧
          (parse_filing findall input).lookup "financial_metrics" = some (PVal.nums []) ∧
          (parse_filing findall input).lookup "pipeline_info" = some (PVal.strs []) ∧
          (parse_filing findall input).lookup "partnerships" = some (PVal.strs []) ∧
          (parse_filing findall input).lookup "patents" = some (PVal.strs [])) := by
  cases hc : input.content with
  | none =>
    constructor
    · simp only [parse_filing, hc]
      rfl
    · intro _
      refine ⟨?_, ?_, ?_, ?_, ?_⟩ <;>
        simp +decide [parse_filing, hc, parsed_data_init, List.lookup]
  | some c =>
    constructor
    · simp only [parse_filing, hc, extract_business_info, List.foldl_cons,
        List.foldl_nil]
      have k0 : (parsed_data_init input).map Prod.fst = parsedFilingKeys := rfl
      have s1 := pyUpdate_keys (parsed_data_init input) "content" (PVal.str c)
        (by rw [k0]; decide)
      have k1 := s1.trans k0
      have s2 := pyUpdate_keys _ "financial_metrics"
        (PVal.nums (extract_financial_metrics findall)) (by rw [k1]; decide)
      have k2 := s2.trans k1
      have s3 := pyUpdate_keys _ "key_highlights" (PVal.strs []) (by rw [k2]; decide)
      have k3 := s3.trans k2
      have s4 := pyUpdate_keys _ "risk_factors" (PVal.strs []) (by rw [k3]; decide)
      have k4 := s4.trans k3
      have s5 := pyUpdate_keys _ "business_overview" (PVal.str "") (by rw [k4]; decide)
      have k5 := s5.trans k4
      have s6 := pyUpdate_keys _ "pipeline_info"
        (PVal.strs (pipeline_patterns.foldl (fun acc p => acc ++ (findall p).take 3) []))
        (by rw [k5]; decide)
      have k6 := s6.trans k5
      have s7 := pyUpdate_keys _ "partnerships"
        (PVal.strs (partnership_patterns.foldl (fun acc p => acc ++ (findall p).take 3) []))
        (by rw [k6]; decide)
      have k7 := s7.trans k6
      have s8 := pyUpdate_keys _ "patents"
        (PVal.strs (patent_patterns.foldl (fun acc p => acc ++ (findall p).take 3) []))
        (by rw [k7]; decide)
      exact s8.trans k7
    · intro h
      exact Option.noConfusion h

/-- Witness for C10 at a fully-empty raw filing dict. -/
theorem c10_parse_filing_shape_witness :
    (parse_filing (fun _ => [])
        { id := none, formType := none, filingDate := none,
          periodOfReport := none, companyName := none, ticker := none,
          filingUrl := none, content := none }).lookup "content" =
      some (PVal.str "") :=
  ((c10_parse_filing_shape (fun _ => [])
      { id := none, formType := none, filingDate := none,
        periodOfReport := none, companyName := none, ticker := none,
        filingUrl := none, content := none }).2 rfl).1
